import Mathlib

/-!
Shallow embedding of the security-critical core of the `nest` gateway
(`src/catbird`): the SSRF validator, DPoP and client-assertion JWT payload
construction, the authenticated proxy with DPoP-nonce retry and response
size cap, the token-refresh and revocation flows (modelled with explicit
side-effect traces), the in-memory fixed-window rate limiter, and the
base64url serde envelope for DPoP key pairs.

Modelling conventions:
* URLs are represented by their parsed components (`UrlParts`); the
  `url::Url::parse` of an already well-formed URL is the identity on these
  components, and `format!`-style path concatenation appends to `path`.
* Machine integers are `Nat`/`Int`; timestamps are Unix seconds (`Int`)
  except the rate limiter, which mirrors `std::time::Instant`/`Duration`
  in nanoseconds (`Nat`).
* Network and Redis I/O is mediated by explicit environment records
  (oracles supplying each response) and every flow returns the list of
  side effects it performed, in order.
* External collaborators (serde JSON parsing, SHA-256, ES256 signing) are
  abstracted: JSON bodies arrive pre-parsed from the oracle, SHA-256 is a
  function parameter, and a signature is represented by the key that
  produced it together with the signing input.
-/

namespace Nest

/-- JSON-ish scalar values used in JWT headers and payloads. -/
inductive JVal where
  | str (s : String)
  | num (n : Int)
  deriving DecidableEq, Repr

/-- Host component of a parsed URL, mirroring `url::Host`. -/
inductive UrlHost where
  | ipv4 (a b c d : Nat)
  | ipv6 (s0 s1 s2 s3 s4 s5 s6 s7 : Nat)
  | domain (name : String)
  deriving DecidableEq, Repr

/-- A parsed URL. `query` is the raw query string when present. -/
structure UrlParts where
  scheme : String
  host : UrlHost
  port : Option Nat := none
  path : String := ""
  query : Option String := none
  deriving DecidableEq, Repr

/-! Structural character-list implementations of the string operations the
source uses (Rust `str` methods operate on byte slices; over the ASCII
data involved these agree with per-character operations). They are written
by structural recursion so that closed instances evaluate in the kernel. -/

/-- Lower-casing, mirroring `str::to_lowercase` over ASCII. -/
def strToLower (s : String) : String := String.mk (s.data.map Char.toLower)

/-- Upper-casing, mirroring `str::to_uppercase` over ASCII. -/
def strToUpper (s : String) : String := String.mk (s.data.map Char.toUpper)

/-- Mirrors `str::starts_with`. -/
def strStartsWith (s pre : String) : Bool := pre.data.isPrefixOf s.data

/-- Mirrors `str::ends_with`. -/
def strEndsWith (s suf : String) : Bool := suf.data.isSuffixOf s.data

/-- Substring search, mirroring `str::contains`. -/
def listContainsSub : List Char → List Char → Bool
  | [], pat => pat.isEmpty
  | c :: rest, pat => pat.isPrefixOf (c :: rest) || listContainsSub rest pat

/-- Substring test mirroring Rust `str::contains`. -/
def containsSub (s pat : String) : Bool := listContainsSub s.data pat.data

/-- Accumulator for decimal parsing. -/
def digitsVal : List Char → Nat → Option Nat
  | [], acc => some acc
  | c :: rest, acc =>
      if c.isDigit then digitsVal rest (acc * 10 + (c.toNat - 48)) else none

/-- Decimal parse mirroring `str::parse::<usize>` (optional leading `+`,
then at least one digit). -/
def parseUsize (s : String) : Option Nat :=
  match s.data with
  | [] => none
  | '+' :: rest => if rest.isEmpty then none else digitsVal rest 0
  | l => digitsVal l 0

/-- Splitting on a separator character (accumulator form). -/
def splitCharAux (sep : Char) : List Char → List Char → List (List Char)
  | [], acc => [acc.reverse]
  | c :: rest, acc =>
      if c == sep then acc.reverse :: splitCharAux sep rest []
      else splitCharAux sep rest (c :: acc)

/-- Joining segments with a separator character. -/
def joinChar (sep : Char) : List (List Char) → List Char
  | [] => []
  | [x] => x
  | x :: xs => x ++ sep :: joinChar sep xs

/-- Textual form of a host as returned by `Url::host_str` (IPv6 rendering is
simplified to uncompressed hex groups; no claim evaluates it). -/
def UrlHost.hostStr : UrlHost → String
  | .ipv4 a b c d =>
      toString a ++ "." ++ toString b ++ "." ++ toString c ++ "." ++ toString d
  | .ipv6 s0 s1 s2 s3 s4 s5 s6 s7 =>
      "[" ++ String.mk (joinChar ':'
        ([s0, s1, s2, s3, s4, s5, s6, s7].map (fun s => Nat.toDigits 16 s))) ++ "]"
  | .domain name => name

/-- Append a path suffix to a URL, mirroring string concatenation of a base
URL (no query/fragment) with a path. -/
def UrlParts.appendPath (u : UrlParts) (p : String) : UrlParts :=
  { u with path := u.path ++ p }

/-- Case-insensitive-by-construction header lookup: header names are stored
lowercase, mirroring `reqwest::header::HeaderMap`. -/
def headerGet (headers : List (String × String)) (name : String) : Option String :=
  (headers.find? (fun h => h.fst == name)).map (·.snd)

/-- Success test mirroring `StatusCode::is_success` (2xx). -/
def statusIsSuccess (status : Nat) : Bool :=
  200 ≤ status && status ≤ 299

/-! SSRF validator, from `src/catbird/src/services/ssrf.rs` (release-build
semantics: the `debug_assertions` branches are compiled out). -/

/-- Private/restricted IPv4 test, from `is_private_ipv4`. -/
def isPrivateIpv4 (a b c d : Nat) : Bool :=
  a == 127
  || a == 10
  || (a == 172 && decide (16 ≤ b ∧ b ≤ 31))
  || (a == 192 && b == 168)
  || (a == 169 && b == 254)
  || (a == 255 && b == 255 && c == 255 && d == 255)
  || (a == 0 && b == 0 && c == 0 && d == 0)
  || (a == 192 && b == 0 && c == 2)
  || (a == 198 && b == 51 && c == 100)
  || (a == 203 && b == 0 && c == 113)
  || (a == 100 && decide (64 ≤ b ∧ b ≤ 127))

/-- Private/restricted IPv6 test, from `is_private_ipv6`. -/
def isPrivateIpv6 (s0 s1 s2 s3 s4 s5 s6 s7 : Nat) : Bool :=
  (s0 == 0 && s1 == 0 && s2 == 0 && s3 == 0 && s4 == 0 && s5 == 0 && s6 == 0 && s7 == 1)
  || (s0 == 0 && s1 == 0 && s2 == 0 && s3 == 0 && s4 == 0 && s5 == 0 && s6 == 0 && s7 == 0)
  || ((s0 &&& 0xfe00) == 0xfc00)
  || ((s0 &&& 0xffc0) == 0xfe80)
  || (s0 == 0 && s1 == 0 && s2 == 0 && s3 == 0 && s4 == 0 && s5 == 0xffff
      && isPrivateIpv4 (s6 / 256) (s6 % 256) (s7 / 256) (s7 % 256))

/-- Localhost-family hostname test, from `is_localhost_hostname`. -/
def isLocalhostHostname (host : String) : Bool :=
  host == "localhost"
  || host == "localhost.localdomain"
  || strEndsWith host ".localhost"
  || strEndsWith host ".local"

/-- SSRF validation of a PDS URL, from `validate_pds_url` (release build:
localhost hostnames are always blocked, and `http` is rejected for every
host that survives the host checks). Returns `true` when the URL is safe. -/
def validatePdsUrl (u : UrlParts) : Bool :=
  let is_http := u.scheme == "http"
  let is_https := u.scheme == "https"
  if !is_http && !is_https then false
  else
    match u.host with
    | .ipv4 a b c d =>
        if isPrivateIpv4 a b c d then false else !is_http
    | .ipv6 s0 s1 s2 s3 s4 s5 s6 s7 =>
        if isPrivateIpv6 s0 s1 s2 s3 s4 s5 s6 s7 then false else !is_http
    | .domain name =>
        if isLocalhostHostname (strToLower name) then false else !is_http

/-! Base64url (URL_SAFE alphabet, no padding), from the `base64` crate
configuration used throughout the repository. -/

/-- The URL-safe base64 alphabet. -/
def b64Alphabet : List Char :=
  ['A','B','C','D','E','F','G','H','I','J','K','L','M',
   'N','O','P','Q','R','S','T','U','V','W','X','Y','Z',
   'a','b','c','d','e','f','g','h','i','j','k','l','m',
   'n','o','p','q','r','s','t','u','v','w','x','y','z',
   '0','1','2','3','4','5','6','7','8','9','-','_']

/-- Character for a sextet value. -/
def b64Char (v : Nat) : Char := b64Alphabet.getD v 'A'

/-- Sextet value of a character, `none` for characters outside the alphabet. -/
def b64Value (c : Char) : Option Nat := b64Alphabet.findIdx? (· == c)

/-- Base64url encoding (no padding) of a byte list. -/
def b64EncodeBytes : List Nat → List Char
  | b0 :: b1 :: b2 :: rest =>
      b64Char (b0 / 4) ::
      b64Char ((b0 % 4) * 16 + b1 / 16) ::
      b64Char ((b1 % 16) * 4 + b2 / 64) ::
      b64Char (b2 % 64) ::
      b64EncodeBytes rest
  | [b0, b1] =>
      [b64Char (b0 / 4), b64Char ((b0 % 4) * 16 + b1 / 16), b64Char ((b1 % 16) * 4)]
  | [b0] =>
      [b64Char (b0 / 4), b64Char ((b0 % 4) * 16)]
  | [] => []

/-- Base64url decoding (no padding required, canonical trailing bits
enforced), mirroring the strict `URL_SAFE_NO_PAD` engine. -/
def b64DecodeChars : List Char → Option (List Nat)
  | c0 :: c1 :: c2 :: c3 :: rest => do
      let v0 ← b64Value c0
      let v1 ← b64Value c1
      let v2 ← b64Value c2
      let v3 ← b64Value c3
      let tail ← b64DecodeChars rest
      pure ((v0 * 4 + v1 / 16) :: ((v1 % 16) * 16 + v2 / 4) :: ((v2 % 4) * 64 + v3) :: tail)
  | [c0, c1] => do
      let v0 ← b64Value c0
      let v1 ← b64Value c1
      if v1 % 16 == 0 then pure [v0 * 4 + v1 / 16] else none
  | [c0, c1, c2] => do
      let v0 ← b64Value c0
      let v1 ← b64Value c1
      let v2 ← b64Value c2
      if v2 % 4 == 0 then pure [v0 * 4 + v1 / 16, (v1 % 16) * 16 + v2 / 4] else none
  | [_] => none
  | [] => some []

/-- Base64url encoding as a string. -/
def b64EncodeString (bs : List Nat) : String := String.mk (b64EncodeBytes bs)

/-! Data model, from `src/catbird/src/models/types.rs` and
`src/catbird/src/error.rs`. -/

/-- Application error kinds produced by the modelled flows, from `AppError`. -/
inductive AppErr where
  | badRequest (msg : String)
  | internal (msg : String)
  | oauth (msg : String)
  | tokenRefresh (msg : String)
  | responseTooLarge (msg : String)
  | crypto (msg : String)
  | config (msg : String)
  | invalidSession
  | httpClient
  | jsonErr
  deriving DecidableEq, Repr

/-- Gateway session record, from `CatbirdSession` (timestamps as Unix
seconds, the `Uuid` id as a string, the stored PDS URL in parsed form). -/
structure CatbirdSession where
  id : String
  did : String
  handle : String
  pds_url : UrlParts
  access_token : String
  refresh_token : String
  access_token_expires_at : Int
  created_at : Int
  last_used_at : Int
  dpop_jkt : Option String
  deriving DecidableEq, Repr

/-- DPoP key pair, from `DPoPKeyPair`: an opaque public JWK (serialized
verbatim by serde) and the P-256 private scalar bytes. -/
structure DPoPKeyPair where
  public_jwk : String
  private_key_bytes : List Nat
  deriving DecidableEq, Repr

/-- Serialization of `private_key_bytes`, from the `base64_bytes` serde
helper: base64url (no padding) of the byte array. -/
def serializePrivateKeyBytes (bs : List Nat) : String :=
  String.mk (b64EncodeBytes bs)

/-- Deserialization of `private_key_bytes`: base64url decode, then the
`try_into` that fails unless exactly 32 bytes were decoded. -/
def deserializePrivateKeyBytes (s : String) : Option (List Nat) :=
  match b64DecodeChars s.data with
  | none => none
  | some bs => if bs.length = 32 then some bs else none

/-- The JSON envelope of a `DPoPKeyPair`: the public JWK passes through
serde verbatim, the private scalar through the base64url helper. -/
def dpopKeyPairSerialize (kp : DPoPKeyPair) : String × String :=
  (kp.public_jwk, serializePrivateKeyBytes kp.private_key_bytes)

/-- Deserializing the envelope back into a `DPoPKeyPair`. -/
def dpopKeyPairDeserialize (env : String × String) : Option DPoPKeyPair :=
  match deserializePrivateKeyBytes env.snd with
  | none => none
  | some bs => some { public_jwk := env.fst, private_key_bytes := bs }

/-! Configuration and signing keys, from `src/catbird/src/config/mod.rs` and
`src/catbird/src/services/crypto.rs`. PEM decoding and parsing are
abstracted: each configured source directly holds its key material. -/

/-- OAuth configuration, from `OAuthConfig`. `private_key_paths` is the
multi-key list as (path, key material) pairs. -/
structure OAuthCfg where
  client_id : String
  private_key_base64 : Option String := none
  private_key_path : Option String := none
  private_key_paths : List (String × String) := []
  active_key_id : String
  deriving DecidableEq, Repr

/-- Key id derived from a key file path, from `derive_kid_from_path`:
the file stem, "catbird-"-prefixed unless already so. -/
def deriveKidFromPath (path : String) : String :=
  let filename := (splitCharAux '/' path.data []).getLastD []
  let parts := splitCharAux '.' filename []
  let stem0 := String.mk (if parts.length ≤ 1 then filename else joinChar '.' parts.dropLast)
  let stem := if stem0 == "" then "key" else stem0
  if strStartsWith stem "catbird-" then stem else "catbird-" ++ stem

/-- Legacy single-key loading, from `load_legacy_key`: base64-embedded key
first, then key file. -/
def loadLegacyKey (cfg : OAuthCfg) : Option String :=
  match cfg.private_key_base64 with
  | some k => some k
  | none => cfg.private_key_path

/-- Key store holding kid-tagged keys with one active, from `KeyStore`. -/
structure KeyStore where
  keys : List (String × String)
  active_key_id : String
  deriving DecidableEq, Repr

/-- Key store construction, from `KeyStore::from_config`: multi-key paths
first, legacy key as `catbird-key-1` when no paths are configured, failure
when no key loads or the active kid is absent. -/
def keyStoreFromConfig (cfg : OAuthCfg) : Except AppErr KeyStore :=
  let pathKeys := cfg.private_key_paths.map (fun pk => (deriveKidFromPath pk.fst, pk.snd))
  let keys :=
    if pathKeys.isEmpty then
      match loadLegacyKey cfg with
      | some k => [("catbird-key-1", k)]
      | none => []
    else pathKeys
  if keys.isEmpty then
    .error (.config "No OAuth private keys configured")
  else if (keys.find? (fun k => k.fst == cfg.active_key_id)).isNone then
    .error (.config "Active key not found in loaded keys")
  else
    .ok { keys := keys, active_key_id := cfg.active_key_id }

/-- The active signing key, from `KeyStore::active_key`. -/
def KeyStore.activeKey (ks : KeyStore) : Option (String × String) :=
  ks.keys.find? (fun k => k.fst == ks.active_key_id)

/-- Private key loading used by the client-assertion signer, from
`CryptoService::load_private_key`: the legacy single-key configuration
only; fails with a `Config` error when neither legacy source is set. -/
def loadPrivateKey (cfg : OAuthCfg) : Except AppErr String :=
  match cfg.private_key_base64 with
  | some k => .ok k
  | none =>
    match cfg.private_key_path with
    | some k => .ok k
    | none => .error (.config "OAuth private key not configured")

/-! JWT construction. A signed compact JWS is modelled structurally: its
decoded header and payload claim lists plus the key material that produced
the ES256 signature. -/

/-- A signed JWT, decoded: header claims, payload claims, signing key. -/
structure Jwt where
  header : List (String × JVal)
  payload : List (String × JVal)
  signedWith : String
  deriving DecidableEq, Repr

/-- The `htu` value for a target URL: scheme, host and path, dropping any
query (and, as `Url::host_str` does, any port). -/
def dpopHtu (u : UrlParts) : String :=
  u.scheme ++ "://" ++ u.host.hostStr ++ u.path

/-- DPoP JWT header, shared by both proof variants. -/
def dpopProofHeader (public_jwk : String) : List (String × JVal) :=
  [("typ", .str "dpop+jwt"), ("alg", .str "ES256"), ("jwk", .str public_jwk)]

/-- Resource-server DPoP proof, from `AtProtoClient::generate_dpop_proof`:
payload `jti`, upper-cased `htm`, query-stripped `htu`, `iat`, `ath` =
base64url(SHA-256(access token)), plus `nonce` when supplied. `sha256Fn`
abstracts the SHA-256 of a string's UTF-8 bytes. -/
def generateDpopProof (sha256Fn : String → List Nat) (key : DPoPKeyPair)
    (accessToken httpMethod : String) (httpUrl : UrlParts)
    (nonce : Option String) (jti : String) (iat : Int) : Jwt :=
  let ath := b64EncodeString (sha256Fn accessToken)
  let base := [("jti", JVal.str jti), ("htm", JVal.str (strToUpper httpMethod)),
               ("htu", JVal.str (dpopHtu httpUrl)), ("iat", JVal.num iat),
               ("ath", JVal.str ath)]
  { header := dpopProofHeader key.public_jwk
  , payload := match nonce with
      | some n => base ++ [("nonce", JVal.str n)]
      | none => base
  , signedWith := b64EncodeString key.private_key_bytes }

/-- Authorization-server DPoP proof, from
`SessionService::generate_dpop_proof_for_auth_server`: same payload without
the `ath` claim. -/
def generateDpopProofForAuthServer (key : DPoPKeyPair)
    (httpMethod : String) (httpUrl : UrlParts)
    (nonce : Option String) (jti : String) (iat : Int) : Jwt :=
  let base := [("jti", JVal.str jti), ("htm", JVal.str (strToUpper httpMethod)),
               ("htu", JVal.str (dpopHtu httpUrl)), ("iat", JVal.num iat)]
  { header := dpopProofHeader key.public_jwk
  , payload := match nonce with
      | some n => base ++ [("nonce", JVal.str n)]
      | none => base
  , signedWith := b64EncodeString key.private_key_bytes }

/-- Issuer string computed by the client-assertion signer: scheme and host
of the audience URL (`Url::host_str` drops any port). -/
def clientAssertionIssuer (audience : UrlParts) : String :=
  audience.scheme ++ "://" ++ audience.host.hostStr

/-- Modelled from the spec: the origin of a URL, which retains an explicit
port. Used only to compare the spec's `aud = origin(endpoint)` against the
code's computation. -/
def specUrlOrigin (u : UrlParts) : String :=
  u.scheme ++ "://" ++ u.host.hostStr ++
    (match u.port with | some p => ":" ++ toString p | none => "")

/-- Client assertion JWT, from `SessionService::generate_client_assertion`:
signed with the key from `CryptoService::load_private_key`, header
`alg`/`typ` only, claims `iss` = `sub` = client id, `aud` = scheme://host
of the audience, `iat` = now, `exp` = now + 300, the supplied fresh `jti`. -/
def generateClientAssertion (cfg : OAuthCfg) (audience : UrlParts)
    (jti : String) (now : Int) : Except AppErr Jwt :=
  match loadPrivateKey cfg with
  | .error e => .error e
  | .ok key =>
      .ok { header := [("alg", JVal.str "ES256"), ("typ", JVal.str "JWT")]
          , payload := [("iss", JVal.str cfg.client_id), ("sub", JVal.str cfg.client_id),
                        ("aud", JVal.str (clientAssertionIssuer audience)),
                        ("iat", JVal.num now), ("exp", JVal.num (now + 300)),
                        ("jti", JVal.str jti)]
          , signedWith := key }

/-! Side effects and Redis key schema, from
`src/catbird/src/services/atproto_client.rs`. -/

/-- A side effect performed by a flow, in order. -/
inductive Effect where
  | httpGet (u : UrlParts)
  | httpPost (u : UrlParts)
  | redisGet (key : String)
  | redisDel (key : String)
  | redisSetEx (key : String)
  deriving DecidableEq, Repr

/-- Storage key of the gateway session record. -/
def catbirdSessionKey (keyPfx id : String) : String :=
  keyPfx ++ "catbird_session:" ++ id

/-- Storage key of the DPoP key record. -/
def dpopKeyKey (keyPfx id : String) : String :=
  keyPfx ++ "dpop_key:" ++ id

/-- Storage key of the per-session OAuth record. -/
def oauthSessionKey (keyPfx id : String) : String :=
  keyPfx ++ "oauth_session:" ++ id

/-- Effects of `SessionService::clear_session_data`: delete all three
per-session records, ignoring individual failures. -/
def clearSessionDataEffects (keyPfx id : String) : List Effect :=
  [.redisDel (catbirdSessionKey keyPfx id),
   .redisDel (dpopKeyKey keyPfx id),
   .redisDel (oauthSessionKey keyPfx id)]

/-- Mutating (write) effects of a trace; Redis reads and HTTP requests are
not state mutations of the session store. -/
def isWriteEffect : Effect → Bool
  | .redisDel _ => true
  | .redisSetEx _ => true
  | _ => false

/-! The authenticated proxy, from `AtProtoClient` in
`src/catbird/src/services/atproto_client.rs`. -/

/-- Maximum response size allowed (50 MiB), from `MAX_RESPONSE_SIZE`. -/
def MAX_RESPONSE_SIZE : Nat := 50 * 1024 * 1024

/-- Threshold above which retry responses are streamed (1 MiB), from
`STREAM_THRESHOLD`. -/
def STREAM_THRESHOLD : Nat := 1 * 1024 * 1024

/-- An upstream HTTP response as seen by the proxy: status, (lowercase)
headers, the body as a sequence of chunk sizes from `bytes_stream`, and the
`error` field of the body when it parses as a JSON object (an abstraction
of `serde_json::from_slice` followed by `.get("error")`). -/
structure UpResp where
  status : Nat
  headers : List (String × String)
  chunks : List Nat
  errorField : Option String
  deriving DecidableEq, Repr

/-- Outcome of `request.send()`: transport failure or a response. -/
inductive SendOutcome where
  | netErr
  | ok (r : UpResp)
  deriving DecidableEq, Repr

/-- Parsed Content-Length of a response, from the
`get("content-length") … parse::<usize>()` chain. -/
def contentLengthOf (headers : List (String × String)) : Option Nat :=
  (headerGet headers "content-length").bind parseUsize

/-- Chunked body read with size-limit enforcement (accumulator form), from
the loop of `read_response_with_limit`: the check fires as soon as the
accumulated size plus the incoming chunk would exceed the limit. -/
def readResponseWithLimitAux (maxSize : Nat) : List Nat → Nat → Except AppErr Nat
  | [], acc => .ok acc
  | c :: rest, acc =>
      if acc + c > maxSize then
        .error (.responseTooLarge "Response exceeded maximum size while reading")
      else
        readResponseWithLimitAux maxSize rest (acc + c)

/-- Body read with size limit, from `AtProtoClient::read_response_with_limit`;
returns the total body size on success. -/
def readResponseWithLimit (chunks : List Nat) (maxSize : Nat) : Except AppErr Nat :=
  readResponseWithLimitAux maxSize chunks 0

/-- Total size of a body's chunks. -/
def chunksTotal (chunks : List Nat) : Nat := chunks.foldl (· + ·) 0

/-- Result of a proxied request, from `ProxyResponse`: a buffered body (its
total size) or a streaming pass-through (body not materialised). -/
inductive ProxyResp where
  | buffered (status : Nat) (headers : List (String × String)) (bodyLen : Nat)
  | streaming (status : Nat) (headers : List (String × String))
  deriving DecidableEq, Repr

/-- First-attempt helper that always buffers, from
`AtProtoClient::do_proxy_request_buffered`: reject an advertised
Content-Length over the cap, then read the body under the cap. -/
def doProxyRequestBuffered (send : SendOutcome) : Except AppErr UpResp :=
  match send with
  | .netErr => .error .httpClient
  | .ok r =>
      if (contentLengthOf r.headers).any (fun len => len > MAX_RESPONSE_SIZE) then
        .error (.responseTooLarge "Response size exceeds maximum allowed")
      else
        match readResponseWithLimit r.chunks MAX_RESPONSE_SIZE with
        | .error e => .error e
        | .ok _ => .ok r

/-- Streaming-aware helper, from `AtProtoClient::do_proxy_request`: reject
an advertised Content-Length over the cap; stream (without reading the
body) when the advertised length exceeds the stream threshold or the
content type is not JSON; otherwise buffer under the cap. -/
def doProxyRequest (send : SendOutcome) : Except AppErr ProxyResp :=
  match send with
  | .netErr => .error .httpClient
  | .ok r =>
      let contentLength := contentLengthOf r.headers
      if contentLength.any (fun len => len > MAX_RESPONSE_SIZE) then
        .error (.responseTooLarge "Response size exceeds maximum allowed")
      else
        let ct := (headerGet r.headers "content-type").getD ""
        let isJson := containsSub ct "application/json"
        let shouldStream := (contentLength.map (fun l => decide (l > STREAM_THRESHOLD))).getD false || !isJson
        if shouldStream then
          .ok (.streaming r.status r.headers)
        else
          match readResponseWithLimit r.chunks MAX_RESPONSE_SIZE with
          | .error e => .error e
          | .ok n => .ok (.buffered r.status r.headers n)

/-- Authorization material attached to an upstream attempt, from
`AtProtoClient::build_auth_headers_for_request`: a DPoP-bound session gets
`Authorization: DPoP <token>` plus a proof, otherwise a plain Bearer
header and no proof. -/
inductive AuthHeaders where
  | dpop (authorization : String) (proof : Jwt)
  | bearer (authorization : String)
  deriving DecidableEq, Repr

/-- Redis lookup of the per-session DPoP key, from
`AtProtoClient::get_dpop_private_key` (parse failures folded into `none`). -/
def getDpopPrivateKey (stored : Option DPoPKeyPair) : Except AppErr DPoPKeyPair :=
  match stored with
  | some k => .ok k
  | none => .error (.internal "DPoP key not found for session")

/-- Auth header construction for one attempt, from
`build_auth_headers_for_request`. -/
def buildAuthHeadersForRequest (sha256Fn : String → List Nat)
    (session : CatbirdSession) (dpopKey : Except AppErr DPoPKeyPair)
    (method : String) (url : UrlParts) (nonce : Option String)
    (jti : String) (iat : Int) : Except AppErr AuthHeaders :=
  match session.dpop_jkt with
  | some _ =>
      match dpopKey with
      | .error e => .error e
      | .ok key =>
          .ok (.dpop ("DPoP " ++ session.access_token)
            (generateDpopProof sha256Fn key session.access_token method url nonce jti iat))
  | none => .ok (.bearer ("Bearer " ++ session.access_token))

/-- One upstream attempt as issued: target URL, request body, auth
material, and the DPoP nonce passed to the proof generator. -/
structure Attempt where
  url : UrlParts
  body : Option (List Nat)
  auth : AuthHeaders
  nonce : Option String
  deriving DecidableEq, Repr

/-- Environment for one call to `proxy_request`: the stored DPoP key and
the upstream's response to each attempt, plus the freshly minted `jti`s
and timestamps of the (up to two) proofs. -/
structure ProxyEnv where
  dpopKeyStored : Option DPoPKeyPair
  send1 : SendOutcome
  send2 : SendOutcome
  jti1 : String := "jti1"
  jti2 : String := "jti2"
  iat1 : Int := 0
  iat2 : Int := 0

/-- The authenticated proxy, from `AtProtoClient::proxy_request`: SSRF-check
the session's PDS URL, issue a buffered first attempt without nonce, and on
a 401 whose JSON body has `error == "use_dpop_nonce"` and that carries a
`DPoP-Nonce` header, retry exactly once with the same body and that nonce
(streaming-aware); otherwise return the buffered first response. Returns
the result together with the list of attempts issued. -/
def proxyRequest (sha256Fn : String → List Nat) (session : CatbirdSession)
    (method path : String) (queryString : Option String)
    (body : Option (List Nat)) (env : ProxyEnv) :
    Except AppErr ProxyResp × List Attempt :=
  if !validatePdsUrl session.pds_url then
    (.error (.badRequest "Invalid PDS URL"), [])
  else
    let url : UrlParts :=
      { session.pds_url with path := session.pds_url.path ++ path, query := queryString }
    match buildAuthHeadersForRequest sha256Fn session
        (getDpopPrivateKey env.dpopKeyStored) method url none env.jti1 env.iat1 with
    | .error e => (.error e, [])
    | .ok auth1 =>
        let a1 : Attempt := { url := url, body := body, auth := auth1, nonce := none }
        match doProxyRequestBuffered env.send1 with
        | .error e => (.error e, [a1])
        | .ok r1 =>
            if r1.status == 401 && r1.errorField == some "use_dpop_nonce" then
              match headerGet r1.headers "dpop-nonce" with
              | some n =>
                  match buildAuthHeadersForRequest sha256Fn session
                      (getDpopPrivateKey env.dpopKeyStored) method url (some n)
                      env.jti2 env.iat2 with
                  | .error e => (.error e, [a1])
                  | .ok auth2 =>
                      let a2 : Attempt := { url := url, body := body, auth := auth2, nonce := some n }
                      (doProxyRequest env.send2, [a1, a2])
              | none => (.ok (.buffered r1.status r1.headers (chunksTotal r1.chunks)), [a1])
            else
              (.ok (.buffered r1.status r1.headers (chunksTotal r1.chunks)), [a1])

/-! Session service flows, from `SessionService` in
`src/catbird/src/services/atproto_client.rs`. Oracles supply each upstream
response; flows return their effect trace. -/

/-- Resource-server metadata body: the first entry of
`authorization_servers` when it exists and is a string (URLs in parsed
form). -/
structure ResourceMeta where
  firstAuthServer : Option UrlParts
  deriving DecidableEq, Repr

/-- Authorization-server metadata body: the endpoints the service extracts. -/
structure AuthServerMeta where
  token_endpoint : Option UrlParts
  revocation_endpoint : Option UrlParts
  deriving DecidableEq, Repr

/-- Outcome of a metadata GET: transport failure, or a status plus the
parsed body (`none` models a JSON parse failure). -/
inductive FetchOutcome (α : Type) where
  | netErr
  | ok (status : Nat) (parsed : Option α)
  deriving DecidableEq, Repr

/-- Relative path of resource-server metadata. -/
def resourceMetadataPath : String := "/.well-known/oauth-protected-resource"

/-- Relative path of authorization-server metadata. -/
def asMetadataPath : String := "/.well-known/oauth-authorization-server"

/-- Shared metadata-resolution chain, from `get_token_endpoint` and
`get_revocation_endpoint` (verbatim duplicates in the source, differing
only in the extracted field): GET the PDS resource metadata, take the first
authorization server, GET its metadata, extract the endpoint. No SSRF
validation is performed on any of the URLs fetched. -/
def resolveAsEndpoint (pds : UrlParts) (r1 : FetchOutcome ResourceMeta)
    (r2 : FetchOutcome AuthServerMeta) (extract : AuthServerMeta → Option UrlParts)
    (missingMsg : String) : Except AppErr UrlParts × List Effect :=
  let u1 := pds.appendPath resourceMetadataPath
  match r1 with
  | .netErr => (.error .httpClient, [.httpGet u1])
  | .ok s1 p1 =>
      if !statusIsSuccess s1 then
        (.error (.internal "Failed to fetch resource server metadata"), [.httpGet u1])
      else
        match p1 with
        | none => (.error .jsonErr, [.httpGet u1])
        | some meta =>
            match meta.firstAuthServer with
            | none =>
                (.error (.internal "No authorization_servers in resource metadata"), [.httpGet u1])
            | some asUrl =>
                let u2 := asUrl.appendPath asMetadataPath
                match r2 with
                | .netErr => (.error .httpClient, [.httpGet u1, .httpGet u2])
                | .ok s2 p2 =>
                    if !statusIsSuccess s2 then
                      (.error (.internal "Failed to fetch auth server metadata"),
                       [.httpGet u1, .httpGet u2])
                    else
                      match p2 with
                      | none => (.error .jsonErr, [.httpGet u1, .httpGet u2])
                      | some am =>
                          match extract am with
                          | none => (.error (.internal missingMsg), [.httpGet u1, .httpGet u2])
                          | some ep => (.ok ep, [.httpGet u1, .httpGet u2])

/-- Token-endpoint resolution, from `SessionService::get_token_endpoint`. -/
def getTokenEndpoint (pds : UrlParts) (r1 : FetchOutcome ResourceMeta)
    (r2 : FetchOutcome AuthServerMeta) : Except AppErr UrlParts × List Effect :=
  resolveAsEndpoint pds r1 r2 (fun am => am.token_endpoint)
    "No token_endpoint in auth server metadata"

/-- Revocation-endpoint resolution, from
`SessionService::get_revocation_endpoint`. -/
def getRevocationEndpoint (pds : UrlParts) (r1 : FetchOutcome ResourceMeta)
    (r2 : FetchOutcome AuthServerMeta) : Except AppErr UrlParts × List Effect :=
  resolveAsEndpoint pds r1 r2 (fun am => am.revocation_endpoint)
    "No revocation_endpoint in auth server metadata"

/-- Token set inside the stored `atrium_oauth` session record. -/
structure OAuthTokenSet where
  access_token : String
  refresh_token : Option String
  deriving DecidableEq, Repr

/-- The per-session OAuth record read from `oauth_session:{id}` (fields the
refresh flow uses). -/
structure OAuthSessionData where
  token_set : OAuthTokenSet
  deriving DecidableEq, Repr

/-- Parsed JSON body of a token-endpoint response (field access via
`as_str` / `as_i64`). -/
structure TokenJson where
  access_token : Option String
  refresh_token : Option String
  expires_in : Option Int
  deriving DecidableEq, Repr

/-- A token-endpoint HTTP response: status, (lowercase) headers, the raw
body text, and the body parsed as JSON when it parses. -/
structure TokenHttpResp where
  status : Nat
  headers : List (String × String)
  bodyText : String
  bodyJson : Option TokenJson
  deriving DecidableEq, Repr

/-- Outcome of a token/revocation POST. -/
inductive PostOutcome where
  | netErr
  | ok (r : TokenHttpResp)
  deriving DecidableEq, Repr

/-- Environment of one `refresh_session_tokens` call: configuration, what
Redis holds, each upstream response, the clock, and the freshly minted
`jti`s of the (up to two) client assertions and DPoP proofs. -/
structure RefreshEnv where
  keyPfx : String
  cfg : OAuthCfg
  oauthSession : Option OAuthSessionData
  dpopKeyStored : Option DPoPKeyPair
  r1 : FetchOutcome ResourceMeta
  r2 : FetchOutcome AuthServerMeta
  post1 : PostOutcome
  post2 : PostOutcome
  now : Int
  jtiAssertion1 : String := "assert-jti-1"
  jtiAssertion2 : String := "assert-jti-2"
  jtiProof1 : String := "proof-jti-1"
  jtiProof2 : String := "proof-jti-2"

/-- The POST / nonce-retry exchange inside `refresh_session_tokens`
(lines building `response` and the 400/401 `DPoP-Nonce` retry): the final
response the remaining logic inspects, plus the POST effects. Proof and
client assertion are regenerated (fresh `jti`s) for the retry. -/
def refreshFinalResponse (env : RefreshEnv) (tokenEndpoint : UrlParts)
    (key : DPoPKeyPair) : Except AppErr TokenHttpResp × List Effect :=
  match env.post1 with
  | .netErr => (.error .httpClient, [.httpPost tokenEndpoint])
  | .ok r =>
      if (r.status == 400 || r.status == 401) then
        match headerGet r.headers "dpop-nonce" with
        | some n =>
            let _proof2 := generateDpopProofForAuthServer key "POST" tokenEndpoint
              (some n) env.jtiProof2 env.now
            match generateClientAssertion env.cfg tokenEndpoint env.jtiAssertion2 env.now with
            | .error e => (.error e, [.httpPost tokenEndpoint])
            | .ok _assertion2 =>
                match env.post2 with
                | .netErr => (.error .httpClient, [.httpPost tokenEndpoint, .httpPost tokenEndpoint])
                | .ok r2 => (.ok r2, [.httpPost tokenEndpoint, .httpPost tokenEndpoint])
        | none => (.ok r, [.httpPost tokenEndpoint])
      else
        (.ok r, [.httpPost tokenEndpoint])

/-- Manual per-session token refresh, from
`SessionService::refresh_session_tokens`: read the per-session OAuth
record, extract its refresh token, resolve the token endpoint (no SSRF
validation on this path), build the grant with a fresh client assertion
and an auth-server DPoP proof, POST with one possible nonce retry; on 2xx
rewrite the OAuth record and return the updated session; on a non-2xx body
mentioning `invalid_grant`/`InvalidGrant` clear all three per-session
records and fail with `TokenRefresh`; on other non-2xx fail with `OAuth`. -/
def refreshSessionTokens (session : CatbirdSession) (env : RefreshEnv) :
    Except AppErr CatbirdSession × List Effect :=
  let oauthKey := oauthSessionKey env.keyPfx session.id
  let fx0 : List Effect := [.redisGet oauthKey]
  match env.oauthSession with
  | none => (.error (.internal "No per-session OAuth data found for session"), fx0)
  | some oauthSession =>
      match oauthSession.token_set.refresh_token with
      | none => (.error (.oauth "No refresh token in session"), fx0)
      | some refreshTok =>
          match getTokenEndpoint session.pds_url env.r1 env.r2 with
          | (.error e, fx1) => (.error e, fx0 ++ fx1)
          | (.ok tokenEndpoint, fx1) =>
              match generateClientAssertion env.cfg tokenEndpoint env.jtiAssertion1 env.now with
              | .error e => (.error e, fx0 ++ fx1)
              | .ok _assertion1 =>
                  match getDpopPrivateKey env.dpopKeyStored with
                  | .error e => (.error e, fx0 ++ fx1)
                  | .ok key =>
                      let _proof1 := generateDpopProofForAuthServer key "POST" tokenEndpoint
                        none env.jtiProof1 env.now
                      match refreshFinalResponse env tokenEndpoint key with
                      | (.error e, fx2) => (.error e, fx0 ++ fx1 ++ fx2)
                      | (.ok resp, fx2) =>
                          let fx := fx0 ++ fx1 ++ fx2
                          if !statusIsSuccess resp.status then
                            if containsSub resp.bodyText "invalid_grant"
                                || containsSub resp.bodyText "InvalidGrant" then
                              (.error (.tokenRefresh "Session expired. Please log in again."),
                               fx ++ clearSessionDataEffects env.keyPfx session.id)
                            else
                              (.error (.oauth ("Token refresh failed with status "
                                ++ toString resp.status ++ ": " ++ resp.bodyText)), fx)
                          else
                            match resp.bodyJson with
                            | none => (.error .jsonErr, fx)
                            | some tok =>
                                match tok.access_token with
                                | none =>
                                    (.error (.oauth "No access_token in refresh response"), fx)
                                | some newAccessToken =>
                                    let newRefreshToken := tok.refresh_token.getD refreshTok
                                    let expiresIn := tok.expires_in.getD 3600
                                    let newExpiresAt := env.now + expiresIn
                                    (.ok { id := session.id
                                         , did := session.did
                                         , handle := session.handle
                                         , pds_url := session.pds_url
                                         , access_token := newAccessToken
                                         , refresh_token := newRefreshToken
                                         , access_token_expires_at := newExpiresAt
                                         , created_at := session.created_at
                                         , last_used_at := env.now
                                         , dpop_jkt := session.dpop_jkt },
                                     fx ++ [.redisSetEx oauthKey])

/-- Environment of one `revoke_session` call. -/
structure RevokeEnv where
  keyPfx : String
  cfg : OAuthCfg
  dpopKeyStored : Option DPoPKeyPair
  r1 : FetchOutcome ResourceMeta
  r2 : FetchOutcome AuthServerMeta
  post1 : PostOutcome
  post2 : PostOutcome
  now : Int
  jtiAssertion1 : String := "assert-jti-1"
  jtiAssertion2 : String := "assert-jti-2"
  jtiProof1 : String := "proof-jti-1"
  jtiProof2 : String := "proof-jti-2"

/-- The POST / nonce-retry exchange inside `revoke_session` (the retry
fires only on a 400 with a `DPoP-Nonce` header; proof and client assertion
are regenerated with fresh `jti`s): the final response the remaining logic
inspects, plus the POST effects. -/
def revokeFinalResponse (env : RevokeEnv) (revocationUrl : UrlParts)
    (key : DPoPKeyPair) : Except AppErr TokenHttpResp × List Effect :=
  match env.post1 with
  | .netErr => (.error .httpClient, [.httpPost revocationUrl])
  | .ok r =>
      if r.status == 400 then
        match headerGet r.headers "dpop-nonce" with
        | some n =>
            let _proof2 := generateDpopProofForAuthServer key "POST"
              revocationUrl (some n) env.jtiProof2 env.now
            match generateClientAssertion env.cfg revocationUrl
                env.jtiAssertion2 env.now with
            | .error e => (.error e, [.httpPost revocationUrl])
            | .ok _assertion2 =>
                match env.post2 with
                | .netErr =>
                    (.error .httpClient,
                     [.httpPost revocationUrl, .httpPost revocationUrl])
                | .ok r2 =>
                    (.ok r2, [.httpPost revocationUrl, .httpPost revocationUrl])
        | none => (.ok r, [.httpPost revocationUrl])
      else
        (.ok r, [.httpPost revocationUrl])

/-- Session revocation, from `SessionService::revoke_session`: SSRF-check
the stored PDS URL, resolve the revocation endpoint, POST the revocation
(preferring the refresh token) with one possible nonce retry on a 400,
treat any completed response as final (HTTP failure is logged and
tolerated), then delete the gateway session record. Any transport or
resolution error propagates before the deletion. -/
def revokeSession (session : CatbirdSession) (env : RevokeEnv) :
    Except AppErr Unit × List Effect :=
  if !validatePdsUrl session.pds_url then
    (.error (.badRequest "Invalid PDS URL"), [])
  else
    match getRevocationEndpoint session.pds_url env.r1 env.r2 with
    | (.error e, fx1) => (.error e, fx1)
    | (.ok revocationUrl, fx1) =>
        match generateClientAssertion env.cfg revocationUrl env.jtiAssertion1 env.now with
        | .error e => (.error e, fx1)
        | .ok _assertion1 =>
            let _tokenToRevoke :=
              if session.refresh_token != "" then session.refresh_token
              else session.access_token
            match getDpopPrivateKey env.dpopKeyStored with
            | .error e => (.error e, fx1)
            | .ok key =>
                let _proof1 := generateDpopProofForAuthServer key "POST" revocationUrl
                  none env.jtiProof1 env.now
                match revokeFinalResponse env revocationUrl key with
                | (.error e, fx2) => (.error e, fx1 ++ fx2)
                | (.ok _final, fx2) =>
                    (.ok (), fx1 ++ fx2 ++ [.redisDel (catbirdSessionKey env.keyPfx session.id)])

/-- The logout handler, from `logout` in `src/catbird/src/handlers/atproto.rs`:
call `revoke_session`, tolerate its failure, then delete the DPoP key and
per-session OAuth records (ignoring individual failures). Returns the
combined effect trace; the handler itself always responds with success. -/
def logoutHandler (session : CatbirdSession) (env : RevokeEnv) : List Effect :=
  let revoked := revokeSession session env
  revoked.snd ++
    [.redisDel (dpopKeyKey env.keyPfx session.id),
     .redisDel (oauthSessionKey env.keyPfx session.id)]

/-! Rate limiter, from `src/catbird/src/middleware/rate_limit.rs`. Time is
in nanoseconds (`Instant`/`Duration`); `Instant` is monotone, so a check's
`now` is never earlier than the stored `window_start`. -/

/-- Rate limit configuration, from `RateLimitConfig` (`window` in ns). -/
structure RLConfig where
  max_requests : Nat
  window : Nat
  deriving DecidableEq, Repr

/-- Per-key entry, from `RateLimitEntry`. -/
structure RLEntry where
  count : Nat
  window_start : Nat
  deriving DecidableEq, Repr

/-- Whole seconds of a duration in ns, from `Duration::as_secs`. -/
def durationAsSecs (ns : Nat) : Nat := ns / 1000000000

/-- One `RateLimiter::check` call on a single key: the entry before the
call (`none` when the key is fresh), the current instant, and the config.
Returns `Except retry_after remaining` together with the entry as left in
the map. -/
def rlCheck (entry : Option RLEntry) (now : Nat) (cfg : RLConfig) :
    Except Nat Nat × RLEntry :=
  let e0 := entry.getD { count := 0, window_start := now }
  let e1 := if now - e0.window_start ≥ cfg.window then
              { count := 0, window_start := now }
            else e0
  if e1.count ≥ cfg.max_requests then
    let retryAfter := durationAsSecs cfg.window - durationAsSecs (now - e1.window_start)
    (.error (max retryAfter 1), e1)
  else
    (.ok (cfg.max_requests - (e1.count + 1)), { count := e1.count + 1
                                              , window_start := e1.window_start })

/-- A sequence of checks on one key, returning the entry after all of them
and the list of results. -/
def rlRun (entry : Option RLEntry) (cfg : RLConfig) :
    List Nat → Option RLEntry × List (Except Nat Nat)
  | [] => (entry, [])
  | t :: ts =>
      let step := rlCheck entry t cfg
      let rest := rlRun (some step.snd) cfg ts
      (rest.fst, step.fst :: rest.snd)

/-! Concrete fixtures used by witnesses and counterexamples. -/

/-- A concrete stand-in for the abstract SHA-256 parameter. -/
def sampleSha : String → List Nat := fun _ => [1, 2, 3]

/-- A concrete DPoP key pair with a 32-byte scalar. -/
def sampleDpopKey : DPoPKeyPair :=
  { public_jwk := "sample-public-jwk", private_key_bytes := List.range 32 }

/-- A public PDS URL that passes SSRF validation. -/
def publicPds : UrlParts := { scheme := "https", host := .domain "pds.example.com" }

/-- A private-network PDS URL that fails SSRF validation. -/
def privatePds : UrlParts := { scheme := "https", host := .ipv4 10 0 0 1 }

/-- A DPoP-bound sample session on the public PDS. -/
def sampleSession : CatbirdSession :=
  { id := "11111111-2222-3333-4444-555555555555"
  , did := "did:plc:sample"
  , handle := "sample.example.com"
  , pds_url := publicPds
  , access_token := "tokA"
  , refresh_token := "tokR"
  , access_token_expires_at := 2000
  , created_at := 100
  , last_used_at := 150
  , dpop_jkt := some "dpop" }

/-- The same session without a DPoP binding (legacy Bearer fallback). -/
def bearerSession : CatbirdSession := { sampleSession with dpop_jkt := none }

/-- A configuration with both a legacy single key and a multi-key list
whose active key differs from the legacy one. -/
def mixedCfg : OAuthCfg :=
  { client_id := "https://catbird.blue/oauth/client-metadata.json"
  , private_key_base64 := none
  , private_key_path := some "legacy-key-material"
  , private_key_paths := [("/keys/catbird-active.pem", "active-key-material")]
  , active_key_id := "catbird-active" }

/-- A configuration holding only the legacy single key. -/
def legacyCfg : OAuthCfg :=
  { client_id := "https://catbird.blue/oauth/client-metadata.json"
  , private_key_path := some "legacy-key-material"
  , active_key_id := "catbird-key-1" }

/-- An authorization-server endpoint URL carrying an explicit port. -/
def portedEndpoint : UrlParts :=
  { scheme := "https", host := .domain "as.example", port := some 8443, path := "/oauth/token" }

/-- Resource metadata pointing at a sample authorization server. -/
def sampleResourceMeta : ResourceMeta :=
  { firstAuthServer := some { scheme := "https", host := .domain "as.example" } }

/-- Authorization-server metadata advertising both endpoints. -/
def sampleAsMeta : AuthServerMeta :=
  { token_endpoint := some { scheme := "https", host := .domain "as.example", path := "/oauth/token" }
  , revocation_endpoint :=
      some { scheme := "https", host := .domain "as.example", path := "/oauth/revoke" } }

/-- A revocation environment in which every call succeeds (the AS accepts
the revocation with a 200). -/
def revokeOkEnv : RevokeEnv :=
  { keyPfx := "cb:"
  , cfg := legacyCfg
  , dpopKeyStored := some sampleDpopKey
  , r1 := .ok 200 (some sampleResourceMeta)
  , r2 := .ok 200 (some sampleAsMeta)
  , post1 := .ok { status := 200, headers := [], bodyText := "", bodyJson := none }
  , post2 := .netErr
  , now := 1000 }

/-- A refresh environment whose very first metadata fetch cannot be reached;
its stored OAuth record does hold a refresh token. -/
def refreshNetErrEnv : RefreshEnv :=
  { keyPfx := "cb:"
  , cfg := legacyCfg
  , oauthSession := some { token_set := { access_token := "oA", refresh_token := some "oR" } }
  , dpopKeyStored := some sampleDpopKey
  , r1 := .netErr
  , r2 := .netErr
  , post1 := .netErr
  , post2 := .netErr
  , now := 1000 }

/-- A refresh environment in which the AS answers the first POST with a
2xx carrying fresh tokens. -/
def refreshOkEnv : RefreshEnv :=
  { keyPfx := "cb:"
  , cfg := legacyCfg
  , oauthSession := some { token_set := { access_token := "oA", refresh_token := some "oR" } }
  , dpopKeyStored := some sampleDpopKey
  , r1 := .ok 200 (some sampleResourceMeta)
  , r2 := .ok 200 (some sampleAsMeta)
  , post1 := .ok { status := 200, headers := [], bodyText := "ok"
                 , bodyJson := some { access_token := some "newA"
                                    , refresh_token := none
                                    , expires_in := some 7200 } }
  , post2 := .netErr
  , now := 1000 }

/-- A refresh environment in which the AS rejects the grant with a 400
`invalid_grant` body. -/
def refreshInvalidGrantEnv : RefreshEnv :=
  { refreshOkEnv with
    post1 := .ok { status := 400, headers := []
                 , bodyText := "error is invalid_grant for this request"
                 , bodyJson := none } }

/-- A refresh environment in which the AS rejects the grant with an
unrelated 500. -/
def refreshOtherErrEnv : RefreshEnv :=
  { refreshOkEnv with
    post1 := .ok { status := 500, headers := [], bodyText := "server exploded"
                 , bodyJson := none } }

/-- A first-attempt response demanding a DPoP nonce. -/
def nonceChallenge : UpResp :=
  { status := 401
  , headers := [("dpop-nonce", "nonce-abc"), ("content-type", "application/json")]
  , chunks := [42]
  , errorField := some "use_dpop_nonce" }

/-- A retry response that is a large non-JSON stream with no advertised
length: more than 50 MiB arrives in one chunk. -/
def hugeStreamResp : UpResp :=
  { status := 200
  , headers := [("content-type", "application/octet-stream")]
  , chunks := [52428801]
  , errorField := none }

/-- A proxy environment triggering the nonce retry whose retry response is
the unbounded stream above. -/
def proxyHugeEnv : ProxyEnv :=
  { dpopKeyStored := some sampleDpopKey
  , send1 := .ok nonceChallenge
  , send2 := .ok hugeStreamResp }

/-- A proxy environment triggering the nonce retry with a small JSON retry
response. -/
def proxyRetryEnv : ProxyEnv :=
  { dpopKeyStored := some sampleDpopKey
  , send1 := .ok nonceChallenge
  , send2 := .ok { status := 200
                 , headers := [("content-type", "application/json")]
                 , chunks := [10]
                 , errorField := none } }

/-- The client assertion the code produces for `mixedCfg` at
`portedEndpoint`, spelled out. -/
def c5Jwt : Jwt :=
  { header := [("alg", .str "ES256"), ("typ", .str "JWT")]
  , payload := [("iss", JVal.str "https://catbird.blue/oauth/client-metadata.json"),
                ("sub", JVal.str "https://catbird.blue/oauth/client-metadata.json"),
                ("aud", JVal.str "https://as.example"),
                ("iat", JVal.num 1000), ("exp", JVal.num 1300),
                ("jti", JVal.str "jti-1")]
  , signedWith := "legacy-key-material" }

/-! Helper lemmas (shared across claims). -/

theorem b64Value_b64Char : ∀ v, v < 64 → b64Value (b64Char v) = some v := by
  decide

theorem b64_roundtrip : ∀ (bs : List Nat), (∀ b ∈ bs, b < 256) →
    b64DecodeChars (b64EncodeBytes bs) = some bs
  | [], _ => rfl
  | [b0], h => by
      have hb0 : b0 < 256 := h b0 (by simp)
      have h1 : b64Value (b64Char (b0 / 4)) = some (b0 / 4) :=
        b64Value_b64Char _ (by omega)
      have h2 : b64Value (b64Char (b0 % 4 * 16)) = some (b0 % 4 * 16) :=
        b64Value_b64Char _ (by omega)
      have h3 : b0 % 4 * 16 % 16 = 0 := by omega
      simp [b64EncodeBytes, b64DecodeChars, h1, h2, h3]
      omega
  | [b0, b1], h => by
      have hb0 : b0 < 256 := h b0 (by simp)
      have hb1 : b1 < 256 := h b1 (by simp)
      have h1 : b64Value (b64Char (b0 / 4)) = some (b0 / 4) :=
        b64Value_b64Char _ (by omega)
      have h2 : b64Value (b64Char (b0 % 4 * 16 + b1 / 16)) = some (b0 % 4 * 16 + b1 / 16) :=
        b64Value_b64Char _ (by omega)
      have h3 : b64Value (b64Char (b1 % 16 * 4)) = some (b1 % 16 * 4) :=
        b64Value_b64Char _ (by omega)
      have h4 : b1 % 16 * 4 % 4 = 0 := by omega
      simp [b64EncodeBytes, b64DecodeChars, h1, h2, h3, h4]
      constructor <;> omega
  | b0 :: b1 :: b2 :: rest, h => by
      have hb0 : b0 < 256 := h b0 (by simp)
      have hb1 : b1 < 256 := h b1 (by simp)
      have hb2 : b2 < 256 := h b2 (by simp)
      have ih := b64_roundtrip rest (fun b hb => h b (by simp [hb]))
      have h1 : b64Value (b64Char (b0 / 4)) = some (b0 / 4) :=
        b64Value_b64Char _ (by omega)
      have h2 : b64Value (b64Char (b0 % 4 * 16 + b1 / 16)) = some (b0 % 4 * 16 + b1 / 16) :=
        b64Value_b64Char _ (by omega)
      have h3 : b64Value (b64Char (b1 % 16 * 4 + b2 / 64)) = some (b1 % 16 * 4 + b2 / 64) :=
        b64Value_b64Char _ (by omega)
      have h4 : b64Value (b64Char (b2 % 64)) = some (b2 % 64) :=
        b64Value_b64Char _ (by omega)
      simp [b64EncodeBytes, b64DecodeChars, h1, h2, h3, h4, ih]
      refine ⟨?_, ?_, ?_⟩ <;> omega

theorem foldl_add_shift (a : Nat) (l : List Nat) :
    l.foldl (· + ·) a = a + l.foldl (· + ·) 0 := by
  induction l generalizing a with
  | nil => simp
  | cons c rest ih =>
      simp only [List.foldl_cons]
      rw [ih (a + c), ih (0 + c)]
      omega

theorem chunksTotal_cons (c : Nat) (rest : List Nat) :
    chunksTotal (c :: rest) = c + chunksTotal rest := by
  unfold chunksTotal
  simp only [List.foldl_cons, Nat.zero_add]
  exact foldl_add_shift c rest

theorem readAux_too_large_iff (maxSize : Nat) : ∀ (chunks : List Nat) (acc : Nat),
    acc ≤ maxSize →
    (readResponseWithLimitAux maxSize chunks acc =
        .error (.responseTooLarge "Response exceeded maximum size while reading")
      ↔ acc + chunksTotal chunks > maxSize)
  | [], acc, h => by
      simp only [readResponseWithLimitAux, chunksTotal, List.foldl_nil]
      constructor
      · intro hcontra
        cases hcontra
      · omega
  | c :: rest, acc, h => by
      rw [chunksTotal_cons]
      simp only [readResponseWithLimitAux]
      by_cases hc : acc + c > maxSize
      · simp only [if_pos hc]
        constructor
        · intro _
          omega
        · intro _
          trivial
      · simp only [if_neg hc]
        rw [readAux_too_large_iff maxSize rest (acc + c) (by omega)]
        omega

theorem resolveAsEndpoint_no_writes (pds : UrlParts) (r1 : FetchOutcome ResourceMeta)
    (r2 : FetchOutcome AuthServerMeta) (extract : AuthServerMeta → Option UrlParts)
    (msg : String) :
    ((resolveAsEndpoint pds r1 r2 extract msg).snd).filter isWriteEffect = [] := by
  unfold resolveAsEndpoint
  (repeat' split) <;> simp [isWriteEffect]

theorem getRevocationEndpoint_no_writes (pds : UrlParts) (r1 : FetchOutcome ResourceMeta)
    (r2 : FetchOutcome AuthServerMeta) :
    ((getRevocationEndpoint pds r1 r2).snd).filter isWriteEffect = [] :=
  resolveAsEndpoint_no_writes pds r1 r2 _ _

theorem getTokenEndpoint_no_writes (pds : UrlParts) (r1 : FetchOutcome ResourceMeta)
    (r2 : FetchOutcome AuthServerMeta) :
    ((getTokenEndpoint pds r1 r2).snd).filter isWriteEffect = [] :=
  resolveAsEndpoint_no_writes pds r1 r2 _ _

theorem refreshFinalResponse_no_writes (env : RefreshEnv) (te : UrlParts)
    (key : DPoPKeyPair) :
    ((refreshFinalResponse env te key).snd).filter isWriteEffect = [] := by
  unfold refreshFinalResponse
  (repeat' split) <;> simp [isWriteEffect]

theorem getTokenEndpoint_first_get (pds : UrlParts) (r1 : FetchOutcome ResourceMeta)
    (r2 : FetchOutcome AuthServerMeta) :
    Effect.httpGet (pds.appendPath resourceMetadataPath) ∈ (getTokenEndpoint pds r1 r2).snd := by
  unfold getTokenEndpoint resolveAsEndpoint
  (repeat' split) <;> simp

theorem revokeFinalResponse_no_writes (env : RevokeEnv) (u : UrlParts)
    (key : DPoPKeyPair) :
    ((revokeFinalResponse env u key).snd).filter isWriteEffect = [] := by
  unfold revokeFinalResponse
  (repeat' split) <;> simp [isWriteEffect]

theorem revokeSession_write_filter (session : CatbirdSession) (env : RevokeEnv) :
    (revokeSession session env).snd.filter isWriteEffect =
      (match (revokeSession session env).fst with
        | .ok _ => [.redisDel (catbirdSessionKey env.keyPfx session.id)]
        | .error _ => []) := by
  unfold revokeSession
  by_cases hv : validatePdsUrl session.pds_url
  · simp only [hv, Bool.not_true, Bool.false_eq_true, if_false]
    rcases hge : getRevocationEndpoint session.pds_url env.r1 env.r2 with ⟨res1, fx1⟩
    have hfx1 : fx1.filter isWriteEffect = [] := by
      have h := getRevocationEndpoint_no_writes session.pds_url env.r1 env.r2
      rw [hge] at h
      exact h
    cases res1 with
    | error e => simp [hfx1]
    | ok u =>
        cases hca : generateClientAssertion env.cfg u env.jtiAssertion1 env.now with
        | error e => simp [hca, hfx1]
        | ok a1 =>
            cases hdk : getDpopPrivateKey env.dpopKeyStored with
            | error e => simp [hca, hdk, hfx1]
            | ok key =>
                rcases hfr : revokeFinalResponse env u key with ⟨res2, fx2⟩
                have hfx2 : fx2.filter isWriteEffect = [] := by
                  have h := revokeFinalResponse_no_writes env u key
                  rw [hfr] at h
                  exact h
                simp only [hca, hdk, hfr]
                cases res2 <;>
                  simp [List.filter_append, hfx1, hfx2, isWriteEffect]
  · simp [hv]

theorem rlRun_fill (cfg : RLConfig) (t0 : Nat) :
    ∀ (ts : List Nat) (c : Nat), c + ts.length ≤ cfg.max_requests →
    (∀ t ∈ ts, t0 ≤ t ∧ t - t0 < cfg.window) →
    (rlRun (some { count := c, window_start := t0 }) cfg ts).fst
        = some { count := c + ts.length, window_start := t0 }
      ∧ ∀ res ∈ (rlRun (some { count := c, window_start := t0 }) cfg ts).snd,
          res.isOk = true
  | [], c, hc, hts => by simp [rlRun]
  | t :: ts, c, hc, hts => by
      have ht := hts t (by simp)
      have hstep : rlCheck (some { count := c, window_start := t0 }) t cfg =
          (.ok (cfg.max_requests - (c + 1)), { count := c + 1, window_start := t0 }) := by
        unfold rlCheck
        have hreset : ¬ t - t0 ≥ cfg.window := by omega
        have hcount : ¬ c ≥ cfg.max_requests := by
          simp at hc
          omega
        simp [hreset, hcount]
      have ih := rlRun_fill cfg t0 ts (c + 1)
        (by simp at hc ⊢; omega) (fun u hu => hts u (by simp [hu]))
      unfold rlRun
      rw [hstep]
      simp only []
      refine ⟨by rw [ih.1]; congr 1; simp; omega, ?_⟩
      intro res hres
      simp at hres
      rcases hres with hres | hres
      · rw [hres]
        rfl
      · exact ih.2 res hres

/-! Claim theorems. -/

/-- C3 counterexample: a refresh for a session whose stored PDS URL is the
private address 10.0.0.1 — rejected by the SSRF validator — still issues
the resource-metadata GET to that address: the refresh path performs no
SSRF validation before its network requests. -/
theorem c3_counterexample :
    validatePdsUrl privatePds = false
    ∧ Effect.httpGet (privatePds.appendPath resourceMetadataPath)
        ∈ (refreshSessionTokens { sampleSession with pds_url := privatePds }
            refreshNetErrEnv).snd := by
  exact ⟨rfl, by decide⟩

/-- C3 amended: the refresh path performs no SSRF validation. Whenever the
per-session OAuth record exists and holds a refresh token, the refresh
issues the resource-metadata GET to the stored PDS URL (and then proceeds
to the AS metadata URL and token endpoint) without ever consulting the
SSRF validator — in particular even when the stored URL fails validation. -/
theorem c3_refresh_no_ssrf_amended (session : CatbirdSession) (env : RefreshEnv)
    (os : OAuthSessionData) (rt : String)
    (hos : env.oauthSession = some os)
    (hrt : os.token_set.refresh_token = some rt) :
    Effect.httpGet (session.pds_url.appendPath resourceMetadataPath)
      ∈ (refreshSessionTokens session env).snd := by
  have hfirst := getTokenEndpoint_first_get session.pds_url env.r1 env.r2
  simp only [refreshSessionTokens, hos, hrt]
  (repeat' split) <;> simp_all [List.mem_append]

/-- C3 witness: the amended theorem at the SSRF-rejected private PDS URL
and an unreachable network. -/
theorem c3_refresh_no_ssrf_amended_witness :
    Effect.httpGet (privatePds.appendPath resourceMetadataPath)
      ∈ (refreshSessionTokens { sampleSession with pds_url := privatePds }
          refreshNetErrEnv).snd := by
  exact c3_refresh_no_ssrf_amended { sampleSession with pds_url := privatePds }
    refreshNetErrEnv { token_set := { access_token := "oA", refresh_token := some "oR" } }
    "oR" rfl rfl

/-- C4: every DPoP proof produced for an authorization-server endpoint
(refresh, revoke) carries no `ath` claim, while every proof produced for a
resource-server request carries `ath` = base64url(SHA-256(access token)). -/
theorem c4_dpop_ath (sha256Fn : String → List Nat) (key : DPoPKeyPair)
    (accessToken method : String) (url : UrlParts) (nonce : Option String)
    (jti : String) (iat : Int) :
    (generateDpopProofForAuthServer key method url nonce jti iat).payload.lookup "ath" = none
    ∧ (generateDpopProof sha256Fn key accessToken method url nonce jti iat).payload.lookup "ath"
        = some (.str (b64EncodeString (sha256Fn accessToken))) := by
  cases nonce <;>
    simp [generateDpopProofForAuthServer, generateDpopProof, List.lookup]

/-- C5 counterexample: at the concrete configuration `mixedCfg` (multi-key
list whose active key is `catbird-active`, plus a legacy key) and the
concrete endpoint `portedEndpoint` (which has an explicit port), the client
assertion has no `kid` header, is signed with the legacy key rather than
the key store's active key, and its `aud` drops the port and so differs
from the endpoint's origin. -/
theorem c5_counterexample :
    generateClientAssertion mixedCfg portedEndpoint "jti-1" 1000 = .ok c5Jwt
    ∧ c5Jwt.header.lookup "kid" = none
    ∧ keyStoreFromConfig mixedCfg =
        .ok { keys := [("catbird-active", "active-key-material")]
            , active_key_id := "catbird-active" }
    ∧ KeyStore.activeKey { keys := [("catbird-active", "active-key-material")]
                         , active_key_id := "catbird-active" }
        = some ("catbird-active", "active-key-material")
    ∧ c5Jwt.signedWith ≠ "active-key-material"
    ∧ c5Jwt.payload.lookup "aud" = some (.str "https://as.example")
    ∧ specUrlOrigin portedEndpoint = "https://as.example:8443"
    := by
  refine ⟨rfl, by decide, rfl, by decide, by decide, by decide, by decide⟩

/-- C5 amended: every client assertion is an ES256 JWT signed with the key
from the legacy single-key configuration (`CryptoService::load_private_key`
does not consult the key store), its header is `alg:ES256, typ:JWT` with no
`kid`, and its claims satisfy `iss = sub = client_id`,
`aud = scheme://host` of the target endpoint (any explicit port omitted —
this equals the endpoint's origin exactly when no port is present),
`iat = now`, `exp = now + 300`, and `jti` the value freshly minted for the
call. -/
theorem c5_client_assertion_amended (cfg : OAuthCfg) (aud : UrlParts)
    (jti : String) (now : Int) (key : String)
    (hkey : loadPrivateKey cfg = .ok key) :
    ∃ jwt, generateClientAssertion cfg aud jti now = .ok jwt
      ∧ jwt.signedWith = key
      ∧ jwt.header = [("alg", .str "ES256"), ("typ", .str "JWT")]
      ∧ jwt.header.lookup "kid" = none
      ∧ jwt.payload.lookup "iss" = some (.str cfg.client_id)
      ∧ jwt.payload.lookup "sub" = some (.str cfg.client_id)
      ∧ jwt.payload.lookup "aud" = some (.str (clientAssertionIssuer aud))
      ∧ jwt.payload.lookup "iat" = some (.num now)
      ∧ jwt.payload.lookup "exp" = some (.num (now + 300))
      ∧ jwt.payload.lookup "jti" = some (.str jti)
      ∧ (aud.port = none → clientAssertionIssuer aud = specUrlOrigin aud) := by
  refine ⟨{ header := [("alg", JVal.str "ES256"), ("typ", JVal.str "JWT")]
          , payload := [("iss", JVal.str cfg.client_id), ("sub", JVal.str cfg.client_id),
                        ("aud", JVal.str (clientAssertionIssuer aud)),
                        ("iat", JVal.num now), ("exp", JVal.num (now + 300)),
                        ("jti", JVal.str jti)]
          , signedWith := key },
    ?_, rfl, rfl, rfl, rfl, rfl, rfl, rfl, rfl, rfl, ?_⟩
  · simp [generateClientAssertion, hkey]
  · intro hp
    simp [clientAssertionIssuer, specUrlOrigin, hp]

/-- C5 witness: the amended theorem applied at the legacy configuration and
the ported endpoint. -/
theorem c5_client_assertion_amended_witness :
    (generateClientAssertion legacyCfg portedEndpoint "j" 5).isOk = true := by
  obtain ⟨jwt, h1, hrest⟩ :=
    c5_client_assertion_amended legacyCfg portedEndpoint "j" 5 "legacy-key-material" rfl
  rw [h1]
  rfl

/-- C9: for a key with config (N requests / W seconds), N requests starting
a fresh window at `t0` (all within W seconds of `t0`) are allowed and leave
the counter full; any further check within W seconds of `t0` is rejected
with `retry_after` in [1, W]; and a check at or after W seconds past `t0`
resets the window and is allowed. -/
theorem c9_rate_limiter (N W t0 : Nat) (rest : List Nat) (hN : 1 ≤ N) (hW : 1 ≤ W)
    (hlen : (t0 :: rest).length = N)
    (hts : ∀ t ∈ t0 :: rest, t0 ≤ t ∧ t - t0 < W * 1000000000) :
    ((rlRun none { max_requests := N, window := W * 1000000000 } (t0 :: rest)).fst
        = some { count := N, window_start := t0 }
      ∧ ∀ res ∈ (rlRun none { max_requests := N, window := W * 1000000000 }
          (t0 :: rest)).snd, res.isOk = true)
    ∧ (∀ t, t0 ≤ t → t - t0 < W * 1000000000 →
        ∃ retryAfter,
          (rlCheck (some { count := N, window_start := t0 }) t
              { max_requests := N, window := W * 1000000000 }).fst = .error retryAfter
          ∧ 1 ≤ retryAfter ∧ retryAfter ≤ W)
    ∧ (∀ t, W * 1000000000 ≤ t - t0 →
        rlCheck (some { count := N, window_start := t0 }) t
            { max_requests := N, window := W * 1000000000 }
          = (.ok (N - 1), { count := 1, window_start := t })) := by
  refine ⟨?_, ?_, ?_⟩
  · have hfirst : rlCheck none t0 { max_requests := N, window := W * 1000000000 } =
        (.ok (N - 1), { count := 1, window_start := t0 }) := by
      unfold rlCheck
      have hreset : ¬ t0 - t0 ≥ W * 1000000000 := by omega
      have hcount : ¬ (0 : Nat) ≥ N := by omega
      simp [hreset, hcount]
    have hfill := rlRun_fill { max_requests := N, window := W * 1000000000 } t0 rest 1
      (by show 1 + rest.length ≤ N; simp at hlen; omega)
      (fun u hu => hts u (by simp [hu]))
    unfold rlRun
    rw [hfirst]
    simp only []
    refine ⟨by rw [hfill.1]; congr 1; simp at hlen ⊢; omega, ?_⟩
    intro res hres
    simp at hres
    rcases hres with hres | hres
    · rw [hres]
      rfl
    · exact hfill.2 res hres
  · intro t hle hlt
    refine ⟨max (W - (t - t0) / 1000000000) 1, ?_, ?_, ?_⟩
    · unfold rlCheck
      have hreset : ¬ t - t0 ≥ W * 1000000000 := by omega
      have hcount : N ≥ N := le_refl N
      simp [hreset, hcount, durationAsSecs]
    · omega
    · have : (t - t0) / 1000000000 ≥ 0 := by omega
      omega
  · intro t hge
    unfold rlCheck
    have hreset : t - t0 ≥ W * 1000000000 := hge
    have hcount : ¬ (0 : Nat) ≥ N := by omega
    simp [hreset, hcount]

/-- C9 witness: the theorem applied with N = 3, W = 60 s at request times
0 s, 0.1 µs, 0.2 µs; the fourth check at 1 s is rejected with
retry_after 59, and a check at exactly 60 s resets and is allowed. -/
theorem c9_rate_limiter_witness :
    (rlRun none { max_requests := 3, window := 60000000000 } [0, 100, 200]).fst
        = some { count := 3, window_start := 0 }
    ∧ (rlCheck (some { count := 3, window_start := 0 }) 1000000000
          { max_requests := 3, window := 60000000000 }).fst = .error 59
    ∧ rlCheck (some { count := 3, window_start := 0 }) 60000000000
          { max_requests := 3, window := 60000000000 }
        = (.ok 2, { count := 1, window_start := 60000000000 }) := by
  have h := c9_rate_limiter 3 60 0 [100, 200] (by decide) (by decide) rfl (by decide)
  exact ⟨h.1.1, rfl, h.2.2 60000000000 (by decide)⟩

/-- C10: serializing a `DPoPKeyPair` (32-byte scalar) to its JSON envelope
and deserializing yields the original pair, and deserialization fails for
any input whose decoded private-key bytes are not exactly 32 bytes long. -/
theorem c10_keypair_roundtrip :
    (∀ kp : DPoPKeyPair, kp.private_key_bytes.length = 32 →
        (∀ b ∈ kp.private_key_bytes, b < 256) →
        dpopKeyPairDeserialize (dpopKeyPairSerialize kp) = some kp)
    ∧ (∀ pj s bs, b64DecodeChars s.data = some bs → bs.length ≠ 32 →
        dpopKeyPairDeserialize (pj, s) = none) := by
  constructor
  · intro kp h32 hb
    simp [dpopKeyPairSerialize, dpopKeyPairDeserialize, serializePrivateKeyBytes,
          deserializePrivateKeyBytes, b64_roundtrip _ hb, h32]
  · intro pj s bs hdec hlen
    simp [dpopKeyPairDeserialize, deserializePrivateKeyBytes, hdec, hlen]

/-- C1 counterexample: with every upstream call succeeding (the AS answers
the revocation POST with 200), `revoke_session` returns success, yet its
effect trace deletes only the `catbird_session` record: neither the
`dpop_key` record nor the `oauth_session` record is deleted by
`revoke_session`, contradicting the claim that all three per-session
records are always deleted. -/
theorem c1_counterexample :
    (revokeSession sampleSession revokeOkEnv).fst = .ok ()
    ∧ (revokeSession sampleSession revokeOkEnv).snd.filter isWriteEffect
        = [.redisDel (catbirdSessionKey "cb:" sampleSession.id)]
    ∧ Effect.redisDel (dpopKeyKey "cb:" sampleSession.id)
        ∉ (revokeSession sampleSession revokeOkEnv).snd
    ∧ Effect.redisDel (oauthSessionKey "cb:" sampleSession.id)
        ∉ (revokeSession sampleSession revokeOkEnv).snd := by
  exact ⟨rfl, rfl, by decide, by decide⟩

/-- C1 amended: `revoke_session` deletes only the `catbird_session` record,
and only when endpoint resolution, credential construction, and the
revocation POST all complete (with any HTTP status — HTTP failure of the
revocation itself is tolerated); on any transport or resolution error it
returns the error having deleted nothing. The `logout` handler
additionally always deletes the `dpop_key` and `oauth_session` records,
even when `revoke_session` fails. -/
theorem c1_revoke_cleanup_amended (session : CatbirdSession) (env : RevokeEnv) :
    ((revokeSession session env).fst = .ok () →
      (revokeSession session env).snd.filter isWriteEffect
        = [.redisDel (catbirdSessionKey env.keyPfx session.id)])
    ∧ (∀ e, (revokeSession session env).fst = .error e →
      (revokeSession session env).snd.filter isWriteEffect = [])
    ∧ Effect.redisDel (dpopKeyKey env.keyPfx session.id) ∈ logoutHandler session env
    ∧ Effect.redisDel (oauthSessionKey env.keyPfx session.id) ∈ logoutHandler session env := by
  refine ⟨?_, ?_, ?_, ?_⟩
  · intro h
    have hw := revokeSession_write_filter session env
    rw [h] at hw
    exact hw
  · intro e h
    have hw := revokeSession_write_filter session env
    rw [h] at hw
    exact hw
  · unfold logoutHandler
    simp
  · unfold logoutHandler
    simp

/-- C1 witness: the amended theorem applied at the all-success environment;
the catbird-session deletion is the only write, and logout adds the other
two deletions. -/
theorem c1_revoke_cleanup_amended_witness :
    (revokeSession sampleSession revokeOkEnv).snd.filter isWriteEffect
      = [.redisDel (catbirdSessionKey "cb:" sampleSession.id)]
    ∧ Effect.redisDel (dpopKeyKey "cb:" sampleSession.id)
        ∈ logoutHandler sampleSession revokeOkEnv := by
  have h := c1_revoke_cleanup_amended sampleSession revokeOkEnv
  exact ⟨h.1 rfl, h.2.2.1⟩

/-- C2 counterexample: through the full proxy pipeline, a retry response
with no advertised Content-Length, a non-JSON content type, and a single
chunk of 50 MiB + 1 bytes is returned as a streaming pass-through, not a
`ResponseTooLarge` error, even though its body exceeds the cap. -/
theorem c2_counterexample :
    chunksTotal hugeStreamResp.chunks > MAX_RESPONSE_SIZE
    ∧ (proxyRequest sampleSha sampleSession "GET" "/xrpc/app.bsky.feed.getTimeline"
        none none proxyHugeEnv).fst = .ok (.streaming 200 hugeStreamResp.headers) := by
  exact ⟨by decide, rfl⟩

/-- C2 amended: an advertised Content-Length over 50 MiB is rejected with
`ResponseTooLarge` on both the always-buffered first attempt and the
streaming-aware retry; whenever a body is buffered, the chunked read fails
with `ResponseTooLarge` exactly when the accumulated body would exceed
50 MiB (a single chunk carrying it past the limit suffices); but a retry
response without an advertised length whose content type is not JSON is
streamed through with no body-size enforcement at all. -/
theorem c2_size_cap_amended :
    (∀ r len, contentLengthOf r.headers = some len → len > MAX_RESPONSE_SIZE →
        doProxyRequest (.ok r) = .error (.responseTooLarge "Response size exceeds maximum allowed")
        ∧ doProxyRequestBuffered (.ok r)
            = .error (.responseTooLarge "Response size exceeds maximum allowed"))
    ∧ (∀ chunks, readResponseWithLimit chunks MAX_RESPONSE_SIZE =
          .error (.responseTooLarge "Response exceeded maximum size while reading")
        ↔ chunksTotal chunks > MAX_RESPONSE_SIZE)
    ∧ (∀ r, contentLengthOf r.headers = none →
        containsSub ((headerGet r.headers "content-type").getD "") "application/json" = false →
        doProxyRequest (.ok r) = .ok (.streaming r.status r.headers)) := by
  refine ⟨?_, ?_, ?_⟩
  · intro r len hcl hbig
    constructor
    · simp [doProxyRequest, hcl, hbig]
    · simp [doProxyRequestBuffered, hcl, hbig]
  · intro chunks
    have h := readAux_too_large_iff MAX_RESPONSE_SIZE chunks 0 (by omega)
    rw [Nat.zero_add] at h
    exact h
  · intro r hcl hct
    simp [doProxyRequest, hcl, hct]

/-- C2 witness: the amended theorem applied at a concrete over-advertised
response, a concrete two-chunk body crossing the limit, and the concrete
unbounded stream. -/
theorem c2_size_cap_amended_witness :
    doProxyRequest (.ok { status := 200
                        , headers := [("content-length", "52428801"),
                                      ("content-type", "application/json")]
                        , chunks := [], errorField := none })
        = .error (.responseTooLarge "Response size exceeds maximum allowed")
    ∧ readResponseWithLimit [52428800, 1] MAX_RESPONSE_SIZE
        = .error (.responseTooLarge "Response exceeded maximum size while reading")
    ∧ doProxyRequest (.ok hugeStreamResp) = .ok (.streaming 200 hugeStreamResp.headers) := by
  refine ⟨(c2_size_cap_amended.1 _ 52428801 (by decide) (by decide)).1, ?_, ?_⟩
  · exact (c2_size_cap_amended.2.1 [52428800, 1]).mpr (by decide)
  · exact c2_size_cap_amended.2.2 hugeStreamResp (by decide) (by decide)

/-- C6: every successful token refresh preserves `id`, `did`, `created_at`
(together with `handle`, `pds_url` and `dpop_jkt`) and sets `last_used_at`
to now; and when the final AS response is a 2xx carrying an access token,
the refresh succeeds with `access_token` taken from the response,
`access_token_expires_at` = now + `expires_in` (defaulting to 3600), and
`refresh_token` taken from the response when present, otherwise keeping
the per-session record's previous refresh token. -/
theorem c6_refresh_frame (session : CatbirdSession) (env : RefreshEnv) :
    (∀ s' fx, refreshSessionTokens session env = (.ok s', fx) →
        s'.id = session.id ∧ s'.did = session.did ∧ s'.handle = session.handle
        ∧ s'.pds_url = session.pds_url ∧ s'.created_at = session.created_at
        ∧ s'.dpop_jkt = session.dpop_jkt ∧ s'.last_used_at = env.now)
    ∧ (∀ os rt te fxte k key resp fxp tok newTok,
        env.oauthSession = some os →
        os.token_set.refresh_token = some rt →
        getTokenEndpoint session.pds_url env.r1 env.r2 = (.ok te, fxte) →
        loadPrivateKey env.cfg = .ok k →
        env.dpopKeyStored = some key →
        refreshFinalResponse env te key = (.ok resp, fxp) →
        statusIsSuccess resp.status = true →
        resp.bodyJson = some tok →
        tok.access_token = some newTok →
        refreshSessionTokens session env =
          (.ok { id := session.id, did := session.did, handle := session.handle
               , pds_url := session.pds_url
               , access_token := newTok
               , refresh_token := tok.refresh_token.getD rt
               , access_token_expires_at := env.now + tok.expires_in.getD 3600
               , created_at := session.created_at
               , last_used_at := env.now
               , dpop_jkt := session.dpop_jkt },
           [.redisGet (oauthSessionKey env.keyPfx session.id)] ++ fxte ++ fxp
             ++ [.redisSetEx (oauthSessionKey env.keyPfx session.id)])) := by
  constructor
  · intro s' fx h
    simp only [refreshSessionTokens] at h
    (repeat' split at h) <;> simp_all
    obtain ⟨h1, h2⟩ := h
    subst h1
    exact ⟨rfl, rfl, rfl, rfl, rfl, rfl, rfl⟩
  · intro os rt te fxte k key resp fxp tok newTok hos hrt hte hk hkey hfinal hsucc hjson hat
    simp [refreshSessionTokens, hos, hrt, hte, generateClientAssertion, hk,
          getDpopPrivateKey, hkey, hfinal, hsucc, hjson, hat]

/-- C6 witness: the happy-path part applied at the concrete 2xx refresh
environment (the AS omits `refresh_token`, so the previous one is kept). -/
theorem c6_refresh_frame_witness :
    refreshSessionTokens sampleSession refreshOkEnv =
      (.ok { id := sampleSession.id, did := sampleSession.did
           , handle := sampleSession.handle, pds_url := publicPds
           , access_token := "newA", refresh_token := "oR"
           , access_token_expires_at := 8200, created_at := 100
           , last_used_at := 1000, dpop_jkt := some "dpop" },
       [.redisGet (oauthSessionKey "cb:" sampleSession.id),
        .httpGet (publicPds.appendPath resourceMetadataPath),
        .httpGet ({ scheme := "https", host := .domain "as.example" : UrlParts}.appendPath
          asMetadataPath),
        .httpPost { scheme := "https", host := .domain "as.example", path := "/oauth/token" },
        .redisSetEx (oauthSessionKey "cb:" sampleSession.id)]) := by
  exact (c6_refresh_frame sampleSession refreshOkEnv).2
    { token_set := { access_token := "oA", refresh_token := some "oR" } } "oR"
    { scheme := "https", host := .domain "as.example", path := "/oauth/token" }
    [.httpGet (publicPds.appendPath resourceMetadataPath),
     .httpGet ({ scheme := "https", host := .domain "as.example" : UrlParts}.appendPath
       asMetadataPath)]
    "legacy-key-material" sampleDpopKey
    { status := 200, headers := [], bodyText := "ok"
    , bodyJson := some { access_token := some "newA", refresh_token := none
                       , expires_in := some 7200 } }
    [.httpPost { scheme := "https", host := .domain "as.example", path := "/oauth/token" }]
    { access_token := some "newA", refresh_token := none, expires_in := some 7200 }
    "newA" rfl rfl rfl rfl rfl rfl rfl rfl rfl

/-- C7: when the refresh reaches the AS and the final response is non-2xx,
a body mentioning `invalid_grant` (or `InvalidGrant`) makes the refresh
delete all three per-session records via `clear_session_data` and fail
with `TokenRefresh("Session expired. Please log in again.")`; any other
non-2xx body makes it fail with an `OAuth` error while performing no
session-store write at all. -/
theorem c7_invalid_grant (session : CatbirdSession) (env : RefreshEnv)
    (os : OAuthSessionData) (rt : String) (te : UrlParts) (fxte : List Effect)
    (k : String) (key : DPoPKeyPair) (resp : TokenHttpResp) (fxp : List Effect)
    (hos : env.oauthSession = some os)
    (hrt : os.token_set.refresh_token = some rt)
    (hte : getTokenEndpoint session.pds_url env.r1 env.r2 = (.ok te, fxte))
    (hk : loadPrivateKey env.cfg = .ok k)
    (hkey : env.dpopKeyStored = some key)
    (hfinal : refreshFinalResponse env te key = (.ok resp, fxp))
    (hfail : statusIsSuccess resp.status = false) :
    ((containsSub resp.bodyText "invalid_grant" || containsSub resp.bodyText "InvalidGrant")
        = true →
      refreshSessionTokens session env =
        (.error (.tokenRefresh "Session expired. Please log in again."),
         [.redisGet (oauthSessionKey env.keyPfx session.id)] ++ fxte ++ fxp
           ++ clearSessionDataEffects env.keyPfx session.id))
    ∧ ((containsSub resp.bodyText "invalid_grant" || containsSub resp.bodyText "InvalidGrant")
        = false →
      refreshSessionTokens session env =
        (.error (.oauth ("Token refresh failed with status " ++ toString resp.status
            ++ ": " ++ resp.bodyText)),
         [.redisGet (oauthSessionKey env.keyPfx session.id)] ++ fxte ++ fxp)
      ∧ ([Effect.redisGet (oauthSessionKey env.keyPfx session.id)] ++ fxte ++ fxp).filter
          isWriteEffect = []) := by
  constructor
  · intro hig
    simp [refreshSessionTokens, hos, hrt, hte, generateClientAssertion, hk,
          getDpopPrivateKey, hkey, hfinal, hfail, hig]
  · intro hig
    have h1 : fxte.filter isWriteEffect = [] := by
      have h := getTokenEndpoint_no_writes session.pds_url env.r1 env.r2
      rw [hte] at h
      exact h
    have h2 : fxp.filter isWriteEffect = [] := by
      have h := refreshFinalResponse_no_writes env te key
      rw [hfinal] at h
      exact h
    rw [Bool.or_eq_false_iff] at hig
    constructor
    · simp [refreshSessionTokens, hos, hrt, hte, generateClientAssertion, hk,
            getDpopPrivateKey, hkey, hfinal, hfail, hig.1, hig.2]
    · simp [List.filter_append, h1, h2, isWriteEffect]

/-- C7 witness: the theorem applied at the concrete `invalid_grant`
rejection (all three deletions appear) and at the unrelated 500 (an OAuth
error with no writes). -/
theorem c7_invalid_grant_witness :
    (refreshSessionTokens sampleSession refreshInvalidGrantEnv).fst
      = .error (.tokenRefresh "Session expired. Please log in again.")
    ∧ Effect.redisDel (dpopKeyKey "cb:" sampleSession.id)
        ∈ (refreshSessionTokens sampleSession refreshInvalidGrantEnv).snd
    ∧ (refreshSessionTokens sampleSession refreshOtherErrEnv).snd.filter isWriteEffect = [] := by
  have hig := c7_invalid_grant sampleSession refreshInvalidGrantEnv
    { token_set := { access_token := "oA", refresh_token := some "oR" } } "oR"
    { scheme := "https", host := .domain "as.example", path := "/oauth/token" }
    [.httpGet (publicPds.appendPath resourceMetadataPath),
     .httpGet ({ scheme := "https", host := .domain "as.example" : UrlParts}.appendPath
       asMetadataPath)]
    "legacy-key-material" sampleDpopKey
    { status := 400, headers := []
    , bodyText := "error is invalid_grant for this request", bodyJson := none }
    [.httpPost { scheme := "https", host := .domain "as.example", path := "/oauth/token" }]
    rfl rfl rfl rfl rfl rfl rfl
  have hoth := c7_invalid_grant sampleSession refreshOtherErrEnv
    { token_set := { access_token := "oA", refresh_token := some "oR" } } "oR"
    { scheme := "https", host := .domain "as.example", path := "/oauth/token" }
    [.httpGet (publicPds.appendPath resourceMetadataPath),
     .httpGet ({ scheme := "https", host := .domain "as.example" : UrlParts}.appendPath
       asMetadataPath)]
    "legacy-key-material" sampleDpopKey
    { status := 500, headers := [], bodyText := "server exploded", bodyJson := none }
    [.httpPost { scheme := "https", host := .domain "as.example", path := "/oauth/token" }]
    rfl rfl rfl rfl rfl rfl rfl
  have h1 := hig.1 (by decide)
  have h2 := (hoth.2 (by decide)).1
  refine ⟨?_, ?_, ?_⟩
  · rw [h1]
  · rw [h1]
    decide
  · rw [h2]
    decide

/-- C8 counterexample: a session without a DPoP binding (the explicit
Bearer fallback of `build_auth_headers_for_request`) that receives the 401
`use_dpop_nonce` challenge does retry once with the same body, but the
retry carries plain Bearer auth and no DPoP proof at all — contradicting
the claim that the retry always carries a proof whose payload contains the
nonce. -/
theorem c8_counterexample :
    ((proxyRequest sampleSha bearerSession "POST" "/xrpc/com.example.op" none
        (some [1, 2]) proxyRetryEnv).snd).map (fun a => (a.auth, a.body, a.nonce))
      = [(.bearer "Bearer tokA", some [1, 2], none),
         (.bearer "Bearer tokA", some [1, 2], some "nonce-abc")] := by
  rfl

/-- C8 amended: at most two attempts are ever issued; when the first
attempt yields a 401 whose JSON body has `error = "use_dpop_nonce"` and a
`DPoP-Nonce: n` header, exactly one retry is issued carrying the same
request body, and — when the session is DPoP-bound and its key is stored —
a DPoP proof whose payload contains `nonce = n`; a session without a DPoP
binding retries with Bearer auth and no proof. No third attempt exists. -/
theorem c8_nonce_retry_amended (sha256Fn : String → List Nat)
    (session : CatbirdSession) (method path : String) (qs : Option String)
    (body : Option (List Nat)) (env : ProxyEnv) :
    (proxyRequest sha256Fn session method path qs body env).snd.length ≤ 2
    ∧ (∀ r1 n, validatePdsUrl session.pds_url = true →
        doProxyRequestBuffered env.send1 = .ok r1 →
        r1.status = 401 → r1.errorField = some "use_dpop_nonce" →
        headerGet r1.headers "dpop-nonce" = some n →
        (∀ jkt key, session.dpop_jkt = some jkt → env.dpopKeyStored = some key →
          proxyRequest sha256Fn session method path qs body env =
            (doProxyRequest env.send2,
             [{ url := { session.pds_url with path := session.pds_url.path ++ path, query := qs }
              , body := body
              , auth := .dpop ("DPoP " ++ session.access_token)
                  (generateDpopProof sha256Fn key session.access_token method
                    { session.pds_url with path := session.pds_url.path ++ path, query := qs }
                    none env.jti1 env.iat1)
              , nonce := none },
              { url := { session.pds_url with path := session.pds_url.path ++ path, query := qs }
              , body := body
              , auth := .dpop ("DPoP " ++ session.access_token)
                  (generateDpopProof sha256Fn key session.access_token method
                    { session.pds_url with path := session.pds_url.path ++ path, query := qs }
                    (some n) env.jti2 env.iat2)
              , nonce := some n }]))
        ∧ (session.dpop_jkt = none →
          proxyRequest sha256Fn session method path qs body env =
            (doProxyRequest env.send2,
             [{ url := { session.pds_url with path := session.pds_url.path ++ path, query := qs }
              , body := body
              , auth := .bearer ("Bearer " ++ session.access_token)
              , nonce := none },
              { url := { session.pds_url with path := session.pds_url.path ++ path, query := qs }
              , body := body
              , auth := .bearer ("Bearer " ++ session.access_token)
              , nonce := some n }])))
    ∧ (∀ key accessToken n jti iat u,
        (generateDpopProof sha256Fn key accessToken method u (some n) jti iat).payload.lookup
            "nonce" = some (.str n)) := by
  refine ⟨?_, ?_, ?_⟩
  · simp only [proxyRequest]
    (repeat' split) <;> simp
  · intro r1 n hval hbuf h401 herr hnon
    constructor
    · intro jkt key hjkt hkey
      simp [proxyRequest, hval, buildAuthHeadersForRequest, hjkt, hkey,
            getDpopPrivateKey, hbuf, h401, herr, hnon]
    · intro hjkt
      simp [proxyRequest, hval, buildAuthHeadersForRequest, hjkt,
            getDpopPrivateKey, hbuf, h401, herr, hnon]
  · intro key accessToken n jti iat u
    simp [generateDpopProof, List.lookup]

/-- C8 witness: the amended theorem applied at the DPoP-bound sample
session and the concrete nonce-challenge environment. -/
theorem c8_nonce_retry_amended_witness :
    ((proxyRequest sampleSha sampleSession "POST" "/xrpc/com.example.op" none
        (some [9]) proxyRetryEnv).snd).map (fun a => a.nonce) = [none, some "nonce-abc"] := by
  have h := (c8_nonce_retry_amended sampleSha sampleSession "POST" "/xrpc/com.example.op"
      none (some [9]) proxyRetryEnv).2.1 nonceChallenge "nonce-abc"
      (by decide) rfl rfl rfl rfl
  rw [(h.1 "dpop" sampleDpopKey rfl rfl)]
  rfl

/-- C10 witness: the round trip at a concrete 32-byte key pair, and a
deserialization failure at a concrete 3-byte encoding. -/
theorem c10_keypair_roundtrip_witness :
    dpopKeyPairDeserialize (dpopKeyPairSerialize sampleDpopKey) = some sampleDpopKey
    ∧ dpopKeyPairDeserialize ("jwk", "AAAA") = none := by
  refine ⟨c10_keypair_roundtrip.1 sampleDpopKey (by decide) (by decide), ?_⟩
  exact c10_keypair_roundtrip.2 "jwk" "AAAA" [0, 0, 0] rfl (by decide)

end Nest
